import Mathlib

/-! Shallow embedding of the gRPC invocation service of the Chapar repository
(package `grpc`: `Service.Dial`, `Service.Invoke`, `Service.invokeServerStream`,
`Service.invokeUnary`, `Service.prepareAuth`, `Service.getMethodDesc`,
`Service.GetServices`, `Service.getActiveEnvironment`, `Service.getImportPaths`,
`Service.parseRegistryFiles`).  The collaborators the service consults
(request store, environment store, variable engine, filesystem, TLS parsing,
the gRPC transport) are abstracted into an explicit `World` record, so that
every observable interaction of one invocation is a pure function of the
`World`.  I/O steps (file reads, dialing, discovery runs) are recorded as an
explicit `Effect` trace. -/

namespace Chapar

/-- Modelled from the spec: one metadata entry of a call definition
(key, value, enabled flag); `domain.KeyValue` with `Enable` in the source's
use sites (the `domain` package itself is not among the sources). -/
structure KeyValueItem where
  key : String
  value : String
  enable : Bool
  deriving DecidableEq

/-- Modelled from the spec: the authentication config as tagged variants
(spec design note: `Auth = None | Bearer{token} | Basic{user,pass} |
ApiKey{key,value}`); the source's `domain.Auth` with `AuthTypeNone`,
`AuthTypeToken`, `AuthTypeBasic`, `AuthTypeAPIKey` is not among the sources,
only its use sites in `prepareAuth` are. -/
inductive Auth where
  | none
  | token (tok : String)
  | basic (username password : String)
  | apikey (key value : String)
  deriving DecidableEq

/-- Modelled from the spec: security plus timeout settings of a call
definition (`req.Settings` use sites in `Dial` and `Invoke`). -/
structure Settings where
  insecure : Bool
  clientCertFile : String
  clientKeyFile : String
  rootCertFile : String
  timeoutMilliseconds : Int
  deriving DecidableEq

/-- Modelled from the spec: target-server information of a call definition
(`req.ServerInfo` use sites in `Dial` and `GetServices`). -/
structure ServerInfo where
  address : String
  serverReflection : Bool
  protoFiles : List String
  deriving DecidableEq

/-- Modelled from the spec: the gRPC call definition
(`domain.GRPCRequestSpec` use sites; `LasSelectedMethod` keeps the source's
spelling). -/
structure GRPCRequestSpec where
  lasSelectedMethod : String
  body : String
  metadata : List KeyValueItem
  auth : Auth
  settings : Settings
  serverInfo : ServerInfo
  deriving DecidableEq

/-- Modelled from the spec: one tracked schema asset
(`domain.ProtoFile` with `Spec.Path`). -/
structure ProtoFile where
  path : String
  deriving DecidableEq

/-- Modelled from the spec: an environment is a named variable set plus
overlay rules rewriting a call definition before use; the overlay is kept
abstract as a function (`Environment.ApplyToGRPCRequest` in the source). -/
structure Environment where
  id : String
  applySpec : GRPCRequestSpec → GRPCRequestSpec

/-- A stored request: the invocation only reads its gRPC spec
(`req.Clone().Spec.GRPC`); cloning is the identity in a pure model. -/
structure Request where
  spec : GRPCRequestSpec

/-- A transport-level RPC error, as seen through `status.Code`:
a numeric code of the gRPC status taxonomy plus a message. -/
structure GrpcError where
  code : Nat
  message : String
  deriving DecidableEq

/-- How a server-stream's receive sequence ends: the end-of-stream signal
(`io.EOF`) or some other receive error. -/
inductive StreamEnd where
  | eof
  | recvErr (e : GrpcError)
  deriving DecidableEq

/-- One observable I/O step of an invocation: a file read, a `grpc.NewClient`
call, or a discovery run (reflection query / schema files read+parse). -/
inductive Effect where
  | fileRead (path : String)
  | dial
  | discoveryReflection
  | discoveryDisk
  deriving DecidableEq

/-- Discovery effects, as counted by the cache-reuse property. -/
def isDiscovery : Effect → Bool
  | .discoveryReflection => true
  | .discoveryDisk => true
  | _ => false

/-- A method descriptor as the registry stores it: simple name plus the two
streaming flags (`protoreflect.MethodDescriptor` restricted to what the
service reads). -/
structure GRPCMethodDesc where
  name : String
  isStreamingClient : Bool
  isStreamingServer : Bool
  deriving DecidableEq

/-- A service descriptor: simple name, dotted full name, methods. -/
structure ServiceDesc where
  name : String
  fullName : String
  methods : List GRPCMethodDesc
  deriving DecidableEq

/-- A file descriptor: the services it declares
(`protoreflect.FileDescriptor` restricted to what the service reads). -/
structure FileDesc where
  services : List ServiceDesc
  deriving DecidableEq

/-- A descriptor registry (`*protoregistry.Files`): one discovery run's
immutable snapshot, modelled by its file descriptors. -/
abbrev Registry := List FileDesc

/-- The per-identity registry cache `s.protoFilesRegistry`
(`safemap.Map[*protoregistry.Files]`). -/
abbrev Cache := String → Option Registry

/-- The empty cache (a fresh `safemap.New`). -/
def cacheEmpty : Cache := fun _ => none

/-- Output shape of `parseRegistryFiles`: `domain.GRPCMethod`. -/
structure GRPCMethod where
  fullName : String
  name : String
  isStreamingClient : Bool
  isStreamingServer : Bool
  deriving DecidableEq

/-- Output shape of `parseRegistryFiles`: `domain.GRPCService`. -/
structure GRPCService where
  name : String
  methods : List GRPCMethod
  deriving DecidableEq

/-- The collaborators and I/O behaviours one invocation can observe:
the request store, the environment store, the variable engine (already
holding its variable table), the filesystem, TLS key-pair parsing, the
discovery back ends, and the transport's answers for this call.  Making
them a record keeps every embedded function deterministic and executable. -/
structure World where
  requests : String → Option Request
  environments : String → Option Environment
  varsApplySpec : GRPCRequestSpec → GRPCRequestSpec
  varsApplyEnv : Environment → Environment
  fs : String → Option String
  parseKeyPair : String → String → Bool
  newClientOk : Bool
  unmarshalOk : String → Bool
  reflectionDiscover : Option Registry
  loadProtoFiles : Option (List ProtoFile)
  protoFilesFromDisk : List String → List String → Option Registry
  filepathDir : String → String
  filepathBase : String → String
  respHeaders : List (String × String)
  respTrailers : List (String × String)
  elapsedMs : Nat
  unaryOutcome : Except GrpcError String
  newStreamErr : Option GrpcError
  sendMsgErr : Option GrpcError
  closeSendErr : Option GrpcError
  streamMsgs : List String
  streamEnd : StreamEnd

/-- Embeds `Service.prepareAuth` (source lines 387-409); the Go function
receives the whole spec but reads only `req.Auth`.  `metadata.MD` is modelled
as the ordered list of appended (key, value) pairs; gRPC canonicalises header
names to lower case on the wire, which is dropped here as claims treat header
names case-insensitively. -/
def prepareAuth (auth : Auth) : Option (List (String × String)) :=
  match auth with
  | .none => Option.none
  | .token tok => some [("Authorization", "Bearer " ++ tok)]
  | .basic u p => some [("Authorization", "Basic " ++ u ++ ":" ++ p)]
  | .apikey k v => some [(k, v)]

/-- Models `metadata.NewOutgoingContext ctx md`: the given metadata replaces
whatever outgoing metadata the context carried before (the old context's
outgoing metadata is dropped, not merged). -/
def newOutgoingContext (_ctx md : List (String × String)) : List (String × String) := md

/-- Models `metadata.AppendToOutgoingContext ctx k v`: the pair is appended to
the context's outgoing metadata. -/
def appendToOutgoingContext (ctx : List (String × String)) (k v : String) :
    List (String × String) :=
  ctx ++ [(k, v)]

/-- Embeds `Service.Invoke`'s outgoing-context construction (source lines
254-264): start from an empty outgoing metadata, append every enabled
metadata entry in order, then — when `prepareAuth` yields headers — install
those headers with `metadata.NewOutgoingContext`. -/
def outgoingMetadata (spec : GRPCRequestSpec) : List (String × String) :=
  let ctx := newOutgoingContext [] []
  let ctx := spec.metadata.foldl
    (fun c item => if item.enable then appendToOutgoingContext c item.key item.value else c)
    ctx
  match prepareAuth spec.auth with
  | some authHeaders => newOutgoingContext ctx authHeaders
  | Option.none => ctx

/-- Embeds the tail of `Service.Dial` (source lines 164-182): root-CA pool
setup (the `x509.SystemCertPool` fallback has no observable effect here),
optional root-certificate read, then `grpc.NewClient`.  `acc` is the effect
trace accumulated by the earlier client-certificate steps. -/
def dialFinish (w : World) (s : Settings) (acc : List Effect) :
    Except String Unit × List Effect :=
  if s.rootCertFile ≠ "" then
    match w.fs s.rootCertFile with
    | Option.none => (.error "failed to read root cert file", acc ++ [.fileRead s.rootCertFile])
    | some _ =>
        ((if w.newClientOk then .ok () else .error "failed to create client"),
          acc ++ [.fileRead s.rootCertFile, .dial])
  else
    ((if w.newClientOk then .ok () else .error "failed to create client"), acc ++ [.dial])

/-- Embeds `Service.Dial` (source lines 137-183).  In the secure branch the
source reads `req.Settings.ClientCertFile` for the certificate half (line
147) and reads `req.Settings.ClientCertFile` again for the key half (line
152); the configured client key path is never read.  The returned value is
the dial result together with the trace of file reads and the
`grpc.NewClient` step. -/
def Dial (w : World) (s : Settings) : Except String Unit × List Effect :=
  if !s.insecure then
    if s.clientCertFile ≠ "" then
      match w.fs s.clientCertFile with
      | Option.none => (.error "failed to read client cert file", [.fileRead s.clientCertFile])
      | some certFile =>
        match w.fs s.clientCertFile with
        | Option.none =>
            (.error "failed to read client key file",
              [.fileRead s.clientCertFile, .fileRead s.clientCertFile])
        | some keyFile =>
          if w.parseKeyPair certFile keyFile then
            dialFinish w s [.fileRead s.clientCertFile, .fileRead s.clientCertFile]
          else
            (.error "failed to parse key pair",
              [.fileRead s.clientCertFile, .fileRead s.clientCertFile])
    else
      dialFinish w s []
  else
    ((if w.newClientOk then .ok () else .error "failed to create client"), [.dial])

/-- Embeds `Service.getActiveEnvironment` (source lines 486-497). -/
def getActiveEnvironment (w : World) (id : String) : Option Environment :=
  if id = "" then Option.none
  else w.environments id

/-- Embeds `Service.getImportPaths` (source lines 499-514): for the explicit
file references and then for the tracked schema assets, collect the
containing directory as import path and the base file name as lookup name. -/
def getImportPaths (w : World) (protoFiles : List ProtoFile) (files : List String) :
    List String × List String :=
  (files.map w.filepathDir ++ protoFiles.map (fun pf => w.filepathDir pf.path),
   files.map w.filepathBase ++ protoFiles.map (fun pf => w.filepathBase pf.path))

/-- Embeds `Service.parseRegistryFiles` (source lines 516-551): flatten the
registry's services, derive each method's slash-qualified full name, stably
sort methods by simple name and services by name. -/
def parseRegistryFiles (reg : Registry) : List GRPCService :=
  let services := reg.foldl
    (fun acc fd => acc ++ fd.services.map (fun svc =>
      { name := svc.name
        methods := (svc.methods.map (fun m =>
          { fullName := "/" ++ svc.fullName ++ "/" ++ m.name
            name := m.name
            isStreamingClient := m.isStreamingClient
            isStreamingServer := m.isStreamingServer : GRPCMethod })).mergeSort
          (fun a b => !(decide (b.name < a.name))) }))
    []
  services.mergeSort (fun a b => !(decide (b.name < a.name)))

/-- Writes `updateCache st id reg` for `s.protoFilesRegistry.Set(id, reg)`. -/
def updateCache (st : Cache) (id : String) (reg : Registry) : Cache :=
  fun k => if k = id then some reg else st k

/-- Embeds the discovery part of `Service.GetServices` (source lines
454-484): dial, then reflection discovery or local-schema discovery, caching
the produced registry under `id` before returning. -/
def discoverAndCache (w : World) (st : Cache) (id : String) (spec : GRPCRequestSpec) :
    Except String (List GRPCService) × Cache × List Effect :=
  match Dial w spec.settings with
  | (.error e, effs) => (.error e, st, effs)
  | (.ok _, dialEffs) =>
    if spec.serverInfo.serverReflection then
      match w.reflectionDiscover with
      | Option.none =>
          (.error "reflection discovery failed", st, dialEffs ++ [.discoveryReflection])
      | some reg =>
          (.ok (parseRegistryFiles reg), updateCache st id reg,
            dialEffs ++ [.discoveryReflection])
    else if !spec.serverInfo.protoFiles.isEmpty then
      match w.loadProtoFiles with
      | Option.none => (.error "failed to load proto files", st, dialEffs ++ [.discoveryDisk])
      | some pfs =>
        match w.protoFilesFromDisk (getImportPaths w pfs spec.serverInfo.protoFiles).1
            (getImportPaths w pfs spec.serverInfo.protoFiles).2 with
        | Option.none =>
            (.error "failed to parse proto files", st, dialEffs ++ [.discoveryDisk])
        | some reg =>
            (.ok (parseRegistryFiles reg), updateCache st id reg,
              dialEffs ++ [.discoveryDisk])
    else
      (.error "no server reflection or proto files found", st, dialEffs)

/-- Embeds `Service.GetServices` (source lines 437-453 plus
`discoverAndCache`): look up the request, apply variable substitution, apply
the environment overlay only when the environment lookup is non-nil (the nil
check at source line 449), then discover. -/
def GetServices (w : World) (st : Cache) (id envID : String) :
    Except String (List GRPCService) × Cache × List Effect :=
  match w.requests id with
  | Option.none => (.error "request not found", st, [])
  | some req =>
    let spec1 := w.varsApplySpec req.spec
    let spec :=
      match getActiveEnvironment w envID with
      | some env0 => (w.varsApplyEnv env0).applySpec spec1
      | Option.none => spec1
    discoverAndCache w st id spec

/-- Helper for `methodNameFromFull`: replace the first `/` character by `.`
(`strings.Replace(s, "/", ".", 1)` for a one-character pattern). -/
def replaceFirstSlashAux : List Char → List Char
  | [] => []
  | c :: cs => if c = '/' then '.' :: cs else c :: replaceFirstSlashAux cs

/-- Embeds the name conversion of `Service.getMethodDesc` (source line 423):
`fullname[1:]` with the first `/` replaced by `.`, turning
`/package.Service/Method` into `package.Service.Method`.  The byte slice
`[1:]` is a one-character drop on ASCII names. -/
def methodNameFromFull (fullname : String) : String :=
  String.mk (replaceFirstSlashAux (fullname.data.drop 1))

/-- A descriptor as `FindDescriptorByName` can return it: a method descriptor
or a descriptor of some other kind (here: a service). -/
inductive FoundDesc where
  | method (m : GRPCMethodDesc)
  | service (s : ServiceDesc)
  deriving DecidableEq

/-- Name lookup inside one service: the service's own full name, or one of
its methods under `fullName.methodName`. -/
def findInService (svc : ServiceDesc) (name : String) : Option FoundDesc :=
  if name = svc.fullName then some (.service svc)
  else svc.methods.findSome? (fun m =>
    if name = svc.fullName ++ "." ++ m.name then some (.method m) else Option.none)

/-- Models `protoregistry.Files.FindDescriptorByName` over the registry
snapshot: first service or method whose dotted full name matches. -/
def findDescriptorByName (reg : Registry) (name : String) : Option FoundDesc :=
  reg.findSome? (fun fd => fd.services.findSome? (fun svc => findInService svc name))

/-- Name lookup through a possibly absent registry; a nil
`*protoregistry.Files` answers every lookup with not-found. -/
def findDescriptorInFiles (reg? : Option Registry) (name : String) : Option FoundDesc :=
  match reg? with
  | Option.none => Option.none
  | some reg => findDescriptorByName reg name

/-- Embeds the registry-resolution part of `Service.getMethodDesc` (source
lines 412-421): a cache hit is returned as is; on a miss `GetServices` runs
discovery and fills the cache, and the entry now stored under `id` (read back
with `Get`, ignoring the exists flag) is returned. -/
def resolveRegistry (w : World) (st : Cache) (id envID : String) :
    Except String (Option Registry) × Cache × List Effect :=
  match st id with
  | some reg => (.ok (some reg), st, [])
  | Option.none =>
    match GetServices w st id envID with
    | (.error e, st2, effs) => (.error e, st2, effs)
    | (.ok _, st2, effs) => (.ok (st2 id), st2, effs)

/-- Embeds `Service.getMethodDesc` (source lines 411-435): resolve the
registry, convert the slash-qualified name, look the descriptor up, and
require it to be of method kind. -/
def getMethodDesc (w : World) (st : Cache) (id envID fullname : String) :
    Except String GRPCMethodDesc × Cache × List Effect :=
  match resolveRegistry w st id envID with
  | (.error e, st2, effs) => (.error e, st2, effs)
  | (.ok reg?, st2, effs) =>
    match findDescriptorInFiles reg? (methodNameFromFull fullname) with
    | Option.none => (.error "failed to find descriptor", st2, effs)
    | some (.method m) => (.ok m, st2, effs)
    | some (.service _) => (.error "descriptor was not a method", st2, effs)

/-- Embeds the receive loop of `Service.invokeServerStream` (source lines
339-364): receive until `io.EOF`, appending
`fmt.Sprintf("Message %d:\n%s\n\n", counter, respJSON)` for each message and
incrementing the counter; any other receive error returns the empty string
together with that error.  Each message is modelled by its already-marshalled
JSON text (the `protojson.Marshal` of a just-received message does not
fail). -/
def streamRecvLoop : Nat → String → List String → StreamEnd → String × Option GrpcError
  | _, out, [], .eof => (out, Option.none)
  | _, _, [], .recvErr e => ("", some e)
  | counter, out, m :: ms, tend =>
      streamRecvLoop (counter + 1)
        (out ++ ("Message " ++ toString counter ++ ":\n" ++ m ++ "\n\n")) ms tend

/-- Embeds `Service.invokeServerStream` (source lines 312-365): stream
creation, sending the single request, closing the send direction — each step
able to fail with the empty string and the error — then the receive loop.
The `conn == nil` guard of the source cannot fire here: `Invoke` reaches the
transport only after a successful `Dial`. -/
def invokeServerStream (w : World) : String × Option GrpcError :=
  match w.newStreamErr with
  | some e => ("", some e)
  | Option.none =>
    match w.sendMsgErr with
    | some e => ("", some e)
    | Option.none =>
      match w.closeSendErr with
      | some e => ("", some e)
      | Option.none => streamRecvLoop 0 "" w.streamMsgs w.streamEnd

/-- Embeds `Service.invokeUnary` (source lines 367-385): one blocking
`conn.Invoke`, yielding the marshalled response text or the error. -/
def invokeUnary (w : World) : String × Option GrpcError :=
  match w.unaryOutcome with
  | .error e => ("", some e)
  | .ok s => (s, Option.none)

/-- Embeds the deadline computation of `Service.Invoke` (source lines
268-271): 5000 ms unless the configured timeout is strictly positive. -/
def effectiveTimeoutMs (t : Int) : Int :=
  if t > 0 then t else 5000

/-- Models `status.Code` on the call's error: nil maps to 0 (OK), an error
carries its taxonomy code. -/
def statusCodeOf : Option GrpcError → Nat
  | Option.none => 0
  | some e => e.code

/-- The symbolic names of the gRPC status taxonomy (`codes.Code.String`). -/
def statusCodeName : Nat → String
  | 0 => "OK"
  | 1 => "Canceled"
  | 2 => "Unknown"
  | 3 => "InvalidArgument"
  | 4 => "DeadlineExceeded"
  | 5 => "NotFound"
  | 6 => "AlreadyExists"
  | 7 => "PermissionDenied"
  | 8 => "ResourceExhausted"
  | 9 => "FailedPrecondition"
  | 10 => "Aborted"
  | 11 => "OutOfRange"
  | 12 => "Unimplemented"
  | 13 => "Internal"
  | 14 => "Unavailable"
  | 15 => "DataLoss"
  | 16 => "Unauthenticated"
  | n => "Code(" ++ toString n ++ ")"

/-- The `Response` the service returns (source lines 110-121, spelling of
`StatueCode` kept); `Cookies` is never set on the gRPC path and is omitted,
elapsed time is in milliseconds. -/
structure Response where
  body : String
  metadata : List (String × String)
  trailers : List (String × String)
  timePassed : Nat
  size : Nat
  error : Option GrpcError
  statueCode : Nat
  status : String
  deriving DecidableEq

/-- Everything `Service.Invoke` has established once it is about to hit the
transport: the substituted spec, the resolved method descriptor, the cache
after descriptor resolution, and the effect trace so far. -/
structure Prepared where
  spec : GRPCRequestSpec
  method : GRPCMethodDesc
  cache : Cache
  effects : List Effect

/-- Outcome of the pre-transport phase of `Service.Invoke`: the nil-pointer
dereference of a missing environment, a `(nil, err)` return, or a prepared
call. -/
inductive PrepOutcome where
  | panicNilEnvironment
  | fail (msg : String) (effects : List Effect) (cache : Cache)
  | ok (p : Prepared)

/-- Embeds the pre-transport phase of `Service.Invoke` (source lines
215-252), in source order: request lookup (`ErrRequestNotFound`), environment
lookup — `variables.ApplyToEnv(vars, &activeEnvironment.Spec)` at line 226
dereferences the environment pointer, so a nil lookup result is a panic —,
variable substitution and environment overlay, the selected-method check,
`Dial`, `getMethodDesc`, and the lenient body decode (modelled by
`unmarshalOk`; unknown fields are discarded by the source's options, so only
malformed bodies fail). -/
def invokePrepare (w : World) (st : Cache) (id envID : String) : PrepOutcome :=
  match w.requests id with
  | Option.none => .fail "request not found" [] st
  | some req =>
    match getActiveEnvironment w envID with
    | Option.none => .panicNilEnvironment
    | some env0 =>
      let env := w.varsApplyEnv env0
      let spec := env.applySpec (w.varsApplySpec req.spec)
      if spec.lasSelectedMethod = "" then .fail "no method selected" [] st
      else
        match Dial w spec.settings with
        | (.error e, effs) => .fail e effs st
        | (.ok _, dialEffs) =>
          match getMethodDesc w st id env.id spec.lasSelectedMethod with
          | (.error e, st2, mdEffs) => .fail e (dialEffs ++ mdEffs) st2
          | (.ok m, st2, mdEffs) =>
            if w.unmarshalOk spec.body then .ok ⟨spec, m, st2, dialEffs ++ mdEffs⟩
            else .fail "failed to unmarshal body" (dialEffs ++ mdEffs) st2

/-- The transport phase's observables: the built `Response`, the returned
error, and the three inputs the transport received — the outgoing metadata,
the timeout attached to the context, and which path was dispatched. -/
structure TransportRun where
  resp : Response
  err : Option GrpcError
  sentMetadata : List (String × String)
  timeoutMs : Int
  dispatchedStream : Bool
  deriving DecidableEq

/-- Embeds the transport phase of `Service.Invoke` (source lines 254-309):
build the outgoing context, attach the timeout, dispatch on
`md.IsStreamingServer()` alone, and assemble the `Response` — headers,
trailers, elapsed time, size and status are filled in regardless of the
error; `Body` is only set when the error is nil. -/
def invokeTransport (w : World) (p : Prepared) : TransportRun :=
  let ctx := outgoingMetadata p.spec
  let t := effectiveTimeoutMs p.spec.settings.timeoutMilliseconds
  let r := if p.method.isStreamingServer then invokeServerStream w else invokeUnary w
  { resp :=
      { body := if r.2.isNone then r.1 else ""
        metadata := w.respHeaders
        trailers := w.respTrailers
        timePassed := w.elapsedMs
        size := r.1.length
        error := r.2
        statueCode := statusCodeOf r.2
        status := statusCodeName (statusCodeOf r.2) }
    err := r.2
    sentMetadata := ctx
    timeoutMs := t
    dispatchedStream := p.method.isStreamingServer }

/-- The overall outcome of `Service.Invoke`: the nil-environment panic, a
`(nil, err)` early return, or a `(out, respErr)` pair from the transport
phase (`respErr` nil on success). -/
inductive InvokeOutcome where
  | panicNilEnvironment
  | earlyError (msg : String)
  | result (resp : Response) (err : Option GrpcError)
  deriving DecidableEq

/-- One full run of `Service.Invoke` (source lines 215-310): outcome, effect
trace, cache after the run, and — when the transport was reached — the
metadata, timeout and dispatch choice it received. -/
structure InvokeRun where
  outcome : InvokeOutcome
  effects : List Effect
  cache : Cache
  sentMetadata : Option (List (String × String))
  timeoutMs : Option Int
  dispatchedStream : Option Bool

/-- Embeds `Service.Invoke` as the composition of its pre-transport phase and
its transport phase. -/
def Invoke (w : World) (st : Cache) (id envID : String) : InvokeRun :=
  match invokePrepare w st id envID with
  | .panicNilEnvironment =>
      ⟨.panicNilEnvironment, [], st, Option.none, Option.none, Option.none⟩
  | .fail msg effs st2 => ⟨.earlyError msg, effs, st2, Option.none, Option.none, Option.none⟩
  | .ok p =>
    let tr := invokeTransport w p
    ⟨.result tr.resp tr.err, p.effects, p.cache,
      some tr.sentMetadata, some tr.timeoutMs, some tr.dispatchedStream⟩

/-- Follows the spec's words (ResponseEncoder, spec section 4.5): the
concatenation of blocks labelled `Message <index>:` followed by the message's
encoded text and a blank line, strictly in order, indices starting at the
given base.  Stated from the spec to be compared against `streamRecvLoop`,
which is translated from the source. -/
def specStreamConcat : Nat → List String → String
  | _, [] => ""
  | i, m :: ms => ("Message " ++ toString i ++ ":\n" ++ m ++ "\n\n") ++ specStreamConcat (i + 1) ms

/-- Concrete settings: plaintext channel, default timeout. -/
def baseSettings : Settings :=
  { insecure := true, clientCertFile := "", clientKeyFile := "", rootCertFile := ""
    timeoutMilliseconds := 0 }

/-- Concrete server info: reflective peer, no local schema files. -/
def baseServerInfo : ServerInfo :=
  { address := "localhost:50051", serverReflection := true, protoFiles := [] }

/-- Concrete call definition selecting the unary method `/pkg.Svc/Echo`. -/
def baseSpec : GRPCRequestSpec :=
  { lasSelectedMethod := "/pkg.Svc/Echo", body := "{}", metadata := []
    auth := Auth.none, settings := baseSettings, serverInfo := baseServerInfo }

/-- Concrete environment with an identity overlay. -/
def envBase : Environment := { id := "e1", applySpec := fun s => s }

/-- The unary method descriptor `Echo`. -/
def methodEcho : GRPCMethodDesc :=
  { name := "Echo", isStreamingClient := false, isStreamingServer := false }

/-- The server-streaming method descriptor `Watch`. -/
def methodWatch : GRPCMethodDesc :=
  { name := "Watch", isStreamingClient := false, isStreamingServer := true }

/-- The client-streaming method descriptor `Upload`. -/
def methodUpload : GRPCMethodDesc :=
  { name := "Upload", isStreamingClient := true, isStreamingServer := false }

/-- Concrete registry: service `pkg.Svc` with the unary method `Echo`. -/
def regEcho : Registry :=
  [{ services := [{ name := "Svc", fullName := "pkg.Svc", methods := [methodEcho] }] }]

/-- Concrete registry: service `pkg.Svc` with the server-streaming method `Watch`. -/
def regWatch : Registry :=
  [{ services := [{ name := "Svc", fullName := "pkg.Svc", methods := [methodWatch] }] }]

/-- Concrete registry: service `pkg.Svc` with the client-streaming method `Upload`. -/
def regUpload : Registry :=
  [{ services := [{ name := "Svc", fullName := "pkg.Svc", methods := [methodUpload] }] }]

/-- Cache already holding `regEcho` for identity `r1`. -/
def cacheEcho : Cache := fun k => if k = "r1" then some regEcho else Option.none

/-- Cache already holding `regWatch` for identity `r1`. -/
def cacheWatch : Cache := fun k => if k = "r1" then some regWatch else Option.none

/-- Cache already holding `regUpload` for identity `r1`. -/
def cacheUpload : Cache := fun k => if k = "r1" then some regUpload else Option.none

/-- Baseline world: identity substitutions, environment `e1` stored, empty
filesystem, transport answering the unary call with `{}` and streams ending
at once. -/
def baseWorld : World :=
  { requests := fun _ => Option.none
    environments := fun k => if k = "e1" then some envBase else Option.none
    varsApplySpec := fun s => s
    varsApplyEnv := fun e => e
    fs := fun _ => Option.none
    parseKeyPair := fun _ _ => true
    newClientOk := true
    unmarshalOk := fun _ => true
    reflectionDiscover := Option.none
    loadProtoFiles := Option.none
    protoFilesFromDisk := fun _ _ => Option.none
    filepathDir := fun _ => "."
    filepathBase := fun p => p
    respHeaders := []
    respTrailers := []
    elapsedMs := 0
    unaryOutcome := Except.ok "{}"
    newStreamErr := Option.none
    sendMsgErr := Option.none
    closeSendErr := Option.none
    streamMsgs := []
    streamEnd := StreamEnd.eof }

/-- Call definition with one enabled metadata entry and API-key auth: the
input on which the auth step drops the metadata entry. -/
def specC1 : GRPCRequestSpec :=
  { baseSpec with
    metadata := [{ key := "trace-id", value := "t1", enable := true }]
    auth := Auth.apikey "X-Api-Key" "secret123" }

/-- Same call definition with no auth configured. -/
def specC1noauth : GRPCRequestSpec := { specC1 with auth := Auth.none }

/-- The receive error used in the streaming counterexample. -/
def errC2 : GrpcError := { code := 14, message := "unavailable" }

/-- Call definition selecting the server-streaming method `/pkg.Svc/Watch`. -/
def specWatch : GRPCRequestSpec := { baseSpec with lasSelectedMethod := "/pkg.Svc/Watch" }

/-- Call definition selecting the client-streaming method `/pkg.Svc/Upload`. -/
def specUpload : GRPCRequestSpec := { baseSpec with lasSelectedMethod := "/pkg.Svc/Upload" }

/-- Call definition with no selected method. -/
def specNoMethod : GRPCRequestSpec := { baseSpec with lasSelectedMethod := "" }

/-- World for the streaming-error run: one message arrives, then the stream
fails with `errC2`. -/
def wC2 : World :=
  { baseWorld with
    requests := fun k => if k = "r1" then some ⟨specWatch⟩ else Option.none
    streamMsgs := ["msg0"]
    streamEnd := StreamEnd.recvErr errC2 }

/-- The prepared call of the streaming-error run. -/
def pC2 : Prepared :=
  ⟨specWatch, methodWatch, cacheWatch, [Effect.dial]⟩

/-- World whose stored request selects the client-streaming method. -/
def wC4 : World :=
  { baseWorld with
    requests := fun k => if k = "r1" then some ⟨specUpload⟩ else Option.none }

/-- The prepared call of the client-streaming run. -/
def pC4 : Prepared :=
  ⟨specUpload, methodUpload, cacheUpload, [Effect.dial]⟩

/-- World whose stored request has no selected method. -/
def wC6 : World :=
  { baseWorld with
    requests := fun k => if k = "r1" then some ⟨specNoMethod⟩ else Option.none }

/-- World for a plain unary run with the default timeout. -/
def wC7 : World :=
  { baseWorld with
    requests := fun k => if k = "r1" then some ⟨baseSpec⟩ else Option.none }

/-- The prepared call of the unary run. -/
def pC7 : Prepared :=
  ⟨baseSpec, methodEcho, cacheEcho, [Effect.dial]⟩

/-- World delivering three stream messages then end-of-stream. -/
def wC9 : World := { baseWorld with streamMsgs := ["m0", "m1", "m2"] }

/-- World for the cache-reuse run: reflection discovery yields `regEcho`. -/
def wC3 : World :=
  { baseWorld with
    requests := fun k => if k = "r1" then some ⟨baseSpec⟩ else Option.none
    reflectionDiscover := some regEcho }

/-- World for the nil-environment run (request stored, environment unknown). -/
def wC10 : World :=
  { baseWorld with
    requests := fun k => if k = "r1" then some ⟨specNoMethod⟩ else Option.none }

/-- Settings with distinct client certificate and key paths, mutual TLS. -/
def settingsC5 : Settings :=
  { insecure := false, clientCertFile := "client.crt", clientKeyFile := "client.key"
    rootCertFile := "", timeoutMilliseconds := 0 }

/-- World whose filesystem holds both TLS files. -/
def wC5 : World :=
  { baseWorld with
    fs := fun p =>
      if p = "client.crt" then some "CERTPEM"
      else if p = "client.key" then some "KEYPEM"
      else Option.none }

/-- The receive loop on a stream ending with `io.EOF` appends exactly the
spec's block concatenation to its accumulator. -/
theorem streamRecvLoop_eof (c : Nat) (out : String) (msgs : List String) :
    streamRecvLoop c out msgs .eof = (out ++ specStreamConcat c msgs, Option.none) := by
  induction msgs generalizing c out with
  | nil => simp [streamRecvLoop, specStreamConcat, String.append_empty]
  | cons m ms ih =>
    simp only [streamRecvLoop, ih, specStreamConcat]
    rw [String.append_assoc]

/-- The receive loop on a stream ending with a non-EOF error returns the
empty string and the error, whatever was accumulated. -/
theorem streamRecvLoop_recvErr (c : Nat) (out : String) (msgs : List String) (e : GrpcError) :
    streamRecvLoop c out msgs (.recvErr e) = ("", some e) := by
  induction msgs generalizing c out with
  | nil => rfl
  | cons m ms ih => simp only [streamRecvLoop]; exact ih _ _

/-- The trailing dial steps record no discovery effect. -/
theorem dialFinish_no_discovery (w : World) (s : Settings) (acc : List Effect)
    (h : acc.countP isDiscovery = 0) :
    ((dialFinish w s acc).2).countP isDiscovery = 0 := by
  unfold dialFinish
  split
  · rcases w.fs s.rootCertFile with _ | c <;>
      simp [List.countP_append, List.countP_cons, isDiscovery, h]
  · simp [List.countP_append, List.countP_cons, isDiscovery, h]

/-- A dial records file reads and a client-creation step, never discovery. -/
theorem dial_no_discovery (w : World) (s : Settings) :
    ((Dial w s).2).countP isDiscovery = 0 := by
  unfold Dial
  repeat' split
  all_goals first
    | exact dialFinish_no_discovery w s _ (by simp [List.countP_cons, isDiscovery])
    | simp [List.countP_cons, isDiscovery]

/-- A successful discovery run performs exactly one discovery effect. -/
theorem discoverAndCache_ok_discovery (w : World) (st : Cache) (id : String)
    (spec : GRPCRequestSpec) (r : List GRPCService) (st2 : Cache) (effs : List Effect)
    (h : discoverAndCache w st id spec = (.ok r, st2, effs)) :
    effs.countP isDiscovery = 1 := by
  unfold discoverAndCache at h
  rcases hD : Dial w spec.settings with ⟨res, dialEffs⟩
  have hdial := dial_no_discovery w spec.settings
  rw [hD] at h hdial
  dsimp only at hdial
  cases res with
  | error e => dsimp only at h; simp at h
  | ok u =>
    dsimp only at h
    by_cases hrefl : spec.serverInfo.serverReflection
    · rw [if_pos hrefl] at h
      rcases hR : w.reflectionDiscover with _ | reg <;> rw [hR] at h <;> dsimp only at h <;>
        simp only [Prod.mk.injEq, Except.ok.injEq, reduceCtorEq, false_and] at h
      rcases h with ⟨-, -, heffs⟩
      simp [← heffs, List.countP_append, List.countP_cons, isDiscovery, hdial]
    · rw [if_neg hrefl] at h
      by_cases hpf : spec.serverInfo.protoFiles.isEmpty
      · simp [hpf] at h
      · simp only [hpf, Bool.not_false, if_true] at h
        rcases hL : w.loadProtoFiles with _ | pfs <;> rw [hL] at h <;> dsimp only at h
        · simp at h
        · rcases hP : w.protoFilesFromDisk (getImportPaths w pfs spec.serverInfo.protoFiles).1
              (getImportPaths w pfs spec.serverInfo.protoFiles).2 with _ | reg <;>
            rw [hP] at h <;> dsimp only at h <;>
            simp only [Prod.mk.injEq, Except.ok.injEq, reduceCtorEq, false_and] at h
          rcases h with ⟨-, -, heffs⟩
          simp [← heffs, List.countP_append, List.countP_cons, isDiscovery, hdial]

/-- A successful `GetServices` run performs exactly one discovery effect. -/
theorem getServices_ok_discovery (w : World) (st : Cache) (id envID : String)
    (r : List GRPCService) (st2 : Cache) (effs : List Effect)
    (h : GetServices w st id envID = (.ok r, st2, effs)) :
    effs.countP isDiscovery = 1 := by
  unfold GetServices at h
  rcases hq : w.requests id with _ | req
  · rw [hq] at h; dsimp only at h; simp at h
  · rw [hq] at h
    dsimp only at h
    exact discoverAndCache_ok_discovery w st id _ r st2 effs h

/-- C1: the claim fails on the code and the code contradicts its own
metadata-attaching loop: at a call definition with one enabled metadata entry
and API-key auth, the outgoing context at send time holds only the auth
entry — `metadata.NewOutgoingContext` replaced the context's metadata, so the
enabled entry `trace-id` was dropped — while with auth `none` the very same
entry is attached. -/
theorem C1_auth_replaces_metadata :
    outgoingMetadata specC1 = [("X-Api-Key", "secret123")]
    ∧ ("trace-id", "t1") ∉ outgoingMetadata specC1
    ∧ outgoingMetadata specC1noauth = [("trace-id", "t1")] :=
  ⟨rfl, by decide, rfl⟩

/-- C2 (counterexample): a server-streaming call that received one message
(`wC2.streamMsgs` is the singleton) and then hit a non-EOF receive error
returns a `CallResult` whose body is empty: the message received before the
error is not retained, refuting the claim's "partial body retained". -/
theorem C2_counterexample :
    wC2.streamMsgs = ["msg0"]
    ∧ (Invoke wC2 cacheWatch "r1" "e1").outcome =
        .result { body := "", metadata := [], trailers := [], timePassed := 0, size := 0,
                  error := some errC2, statueCode := 14, status := "Unavailable" }
          (some errC2) :=
  ⟨rfl, rfl⟩

/-- C2 (amended): for every server-streaming call in which some messages are
received and then a non-EOF receive error occurs, the returned `CallResult`
still carries headers, trailers, timing and the error, but its body is empty:
the receive loop discards the accumulated partial output (`return "", err`). -/
theorem C2_stream_error_discards_partial (w : World) (st : Cache) (id envID : String)
    (p : Prepared) (e : GrpcError)
    (hp : invokePrepare w st id envID = .ok p)
    (hs : p.method.isStreamingServer = true)
    (h1 : w.newStreamErr = Option.none) (h2 : w.sendMsgErr = Option.none)
    (h3 : w.closeSendErr = Option.none)
    (he : w.streamEnd = .recvErr e) :
    (Invoke w st id envID).outcome =
      .result { body := "", metadata := w.respHeaders, trailers := w.respTrailers,
                timePassed := w.elapsedMs, size := 0, error := some e,
                statueCode := e.code, status := statusCodeName e.code }
        (some e) := by
  simp [Invoke, hp, invokeTransport, invokeServerStream, h1, h2, h3, he, hs,
    streamRecvLoop_recvErr, statusCodeOf]

/-- Witness for C2's amended theorem at the concrete streaming-error world. -/
theorem C2_stream_error_discards_partial_witness :
    (Invoke wC2 cacheWatch "r1" "e1").outcome =
      .result { body := "", metadata := wC2.respHeaders, trailers := wC2.respTrailers,
                timePassed := wC2.elapsedMs, size := 0, error := some errC2,
                statueCode := errC2.code, status := statusCodeName errC2.code }
        (some errC2) :=
  C2_stream_error_discards_partial wC2 cacheWatch "r1" "e1" pC2 errC2 rfl rfl rfl rfl rfl rfl

/-- C3: registry resolution for a call-definition identity is cached: a cache
hit is returned as is with no discovery effect; a miss that succeeds performs
exactly one discovery run, stores the discovered registry under the identity
before returning it, and a second resolution then returns that entry with no
further discovery — so resolving twice discovers exactly once. -/
theorem C3_cache_reuse (w : World) (st : Cache) (id envID : String) :
    (∀ reg, st id = some reg → resolveRegistry w st id envID = (.ok (some reg), st, []))
    ∧ (st id = Option.none →
        ∀ reg st2 effs, resolveRegistry w st id envID = (.ok (some reg), st2, effs) →
          st2 id = some reg
          ∧ effs.countP isDiscovery = 1
          ∧ resolveRegistry w st2 id envID = (.ok (some reg), st2, [])) := by
  constructor
  · intro reg h
    unfold resolveRegistry
    rw [h]
  · intro h0 reg st2 effs hr
    unfold resolveRegistry at hr
    rw [h0] at hr
    dsimp only at hr
    rcases hG : GetServices w st id envID with ⟨res, stG, effsG⟩
    rw [hG] at hr
    cases res with
    | error e => dsimp only at hr; simp at hr
    | ok svcs =>
      dsimp only at hr
      obtain ⟨hreg, hst, heffs⟩ : stG id = some reg ∧ stG = st2 ∧ effsG = effs := by
        simpa [Prod.ext_iff] using hr
      subst hst heffs
      refine ⟨hreg, getServices_ok_discovery w st id envID svcs _ _ hG, ?_⟩
      unfold resolveRegistry
      rw [hreg]

/-- Witness for C3 at a concrete reflective world: a hit on a warm cache, and
a miss on the empty cache that discovers once, stores, and then hits. -/
theorem C3_cache_reuse_witness :
    resolveRegistry wC3 (updateCache cacheEmpty "r1" regEcho) "r1" "e1"
        = (.ok (some regEcho), updateCache cacheEmpty "r1" regEcho, [])
    ∧ ((updateCache cacheEmpty "r1" regEcho) "r1" = some regEcho
       ∧ ([Effect.dial, Effect.discoveryReflection]).countP isDiscovery = 1
       ∧ resolveRegistry wC3 (updateCache cacheEmpty "r1" regEcho) "r1" "e1"
           = (.ok (some regEcho), updateCache cacheEmpty "r1" regEcho, [])) :=
  ⟨(C3_cache_reuse wC3 (updateCache cacheEmpty "r1" regEcho) "r1" "e1").1 regEcho rfl,
   (C3_cache_reuse wC3 cacheEmpty "r1" "e1").2 rfl regEcho
     (updateCache cacheEmpty "r1" regEcho) [Effect.dial, Effect.discoveryReflection] rfl⟩

/-- C4 (counterexample): the stored request selects the client-streaming
method `Upload` (`isStreamingClient = true`), yet `Invoke` raises no
BuildFailure: the call is dispatched to the unary transport path
(`dispatchedStream = some false`) and completes as an ordinary result — the
source dispatches on `md.IsStreamingServer()` alone and never checks the
client-streaming flag. -/
theorem C4_counterexample :
    methodUpload.isStreamingClient = true
    ∧ (Invoke wC4 cacheUpload "r1" "e1").dispatchedStream = some false
    ∧ (Invoke wC4 cacheUpload "r1" "e1").outcome =
        .result { body := "{}", metadata := [], trailers := [], timePassed := 0, size := 2,
                  error := Option.none, statueCode := 0, status := "OK" } Option.none :=
  ⟨rfl, rfl, rfl⟩

/-- C4 (amended): `Invoke` never rejects a method for having the
client-streaming flag set; once a call is prepared, dispatch to the transport
is decided solely by the server-streaming flag — server-streaming methods
(including bidirectional ones) take the streaming path, all others
(including client-streaming ones) take the unary path. -/
theorem C4_dispatch_by_server_flag (w : World) (st : Cache) (id envID : String) (p : Prepared)
    (hp : invokePrepare w st id envID = .ok p) :
    (Invoke w st id envID).dispatchedStream = some p.method.isStreamingServer := by
  simp [Invoke, hp, invokeTransport]

/-- Witness for C4's amended theorem at the client-streaming world. -/
theorem C4_dispatch_by_server_flag_witness :
    (Invoke wC4 cacheUpload "r1" "e1").dispatchedStream = some pC4.method.isStreamingServer :=
  C4_dispatch_by_server_flag wC4 cacheUpload "r1" "e1" pC4 rfl

/-- C5: the claim is right and the code wrong: with the insecure flag unset
and distinct client certificate and key paths configured, `Dial` reads the
certificate path twice — the variable holding the key half also reads
`req.Settings.ClientCertFile` — and never reads the configured key path. -/
theorem C5_key_read_from_cert_path :
    (Dial wC5 settingsC5).2 = [.fileRead "client.crt", .fileRead "client.crt", .dial]
    ∧ Effect.fileRead "client.key" ∉ (Dial wC5 settingsC5).2
    ∧ (Dial wC5 settingsC5).1 = .ok () :=
  ⟨rfl, by decide, rfl⟩

/-- C6: with the request stored and the environment resolved, a call
definition whose selected method (after substitution) is empty makes `Invoke`
return the no-method-selected failure with an empty effect trace — no dial,
no discovery, no partial result — and the cache untouched. -/
theorem C6_no_method_selected (w : World) (st : Cache) (id envID : String)
    (req : Request) (env : Environment)
    (hreq : w.requests id = some req)
    (henv : getActiveEnvironment w envID = some env)
    (hm : ((w.varsApplyEnv env).applySpec (w.varsApplySpec req.spec)).lasSelectedMethod = "") :
    Invoke w st id envID =
      ⟨.earlyError "no method selected", [], st, Option.none, Option.none, Option.none⟩ := by
  simp [Invoke, invokePrepare, hreq, henv, hm]

/-- Witness for C6 at the concrete no-method world. -/
theorem C6_no_method_selected_witness :
    Invoke wC6 cacheEmpty "r1" "e1" =
      ⟨.earlyError "no method selected", [], cacheEmpty, Option.none, Option.none, Option.none⟩ :=
  C6_no_method_selected wC6 cacheEmpty "r1" "e1" ⟨specNoMethod⟩ envBase rfl rfl rfl

/-- C7: whenever `Invoke` reaches the transport, the context it hands over —
for the unary call as for the whole receive loop of a streaming call —
carries the single timeout `effectiveTimeoutMs`: the configured milliseconds
when strictly positive, 5000 ms when the timeout is zero (unset). -/
theorem C7_deadline (w : World) (st : Cache) (id envID : String) (p : Prepared)
    (hp : invokePrepare w st id envID = .ok p) :
    (Invoke w st id envID).timeoutMs =
        some (effectiveTimeoutMs p.spec.settings.timeoutMilliseconds)
    ∧ (p.spec.settings.timeoutMilliseconds > 0 →
        (Invoke w st id envID).timeoutMs = some p.spec.settings.timeoutMilliseconds)
    ∧ (p.spec.settings.timeoutMilliseconds = 0 →
        (Invoke w st id envID).timeoutMs = some 5000) := by
  refine ⟨?_, ?_, ?_⟩
  · simp [Invoke, hp, invokeTransport]
  · intro h
    simp [Invoke, hp, invokeTransport, effectiveTimeoutMs, h]
  · intro h
    simp [Invoke, hp, invokeTransport, effectiveTimeoutMs, h]

/-- Witness for C7 at the concrete default-timeout world. -/
theorem C7_deadline_witness :
    (Invoke wC7 cacheEcho "r1" "e1").timeoutMs = some 5000 :=
  (C7_deadline wC7 cacheEcho "r1" "e1" pC7 rfl).2.2 rfl

/-- C8: `prepareAuth` resolves exactly one header set per variant: bearer
token gives the single `Authorization: Bearer <token>` entry; basic gives the
single `Authorization` entry `Basic <username>:<password>`, a literal
concatenation with no encoding step; API-key gives the single entry under the
configured header name — no `Authorization` entry when that name differs —
and `none` gives no entry at all. -/
theorem C8_prepareAuth_variants :
    prepareAuth Auth.none = Option.none
    ∧ (∀ t, prepareAuth (Auth.token t) = some [("Authorization", "Bearer " ++ t)])
    ∧ (∀ u p, prepareAuth (Auth.basic u p) = some [("Authorization", "Basic " ++ u ++ ":" ++ p)])
    ∧ (∀ k v, prepareAuth (Auth.apikey k v) = some [(k, v)])
    ∧ (∀ k v, k ≠ "Authorization" →
        ∀ h ∈ (prepareAuth (Auth.apikey k v)).getD [], h.1 ≠ "Authorization") := by
  refine ⟨rfl, fun t => rfl, fun u p => rfl, fun k v => rfl, ?_⟩
  intro k v hk h hmem
  simp [prepareAuth] at hmem
  simp [hmem, hk]

/-- Witness for C8 at the spec's concrete auth configs. -/
theorem C8_prepareAuth_variants_witness :
    prepareAuth Auth.none = Option.none
    ∧ prepareAuth (Auth.token "tok1") = some [("Authorization", "Bearer tok1")]
    ∧ prepareAuth (Auth.basic "user1" "pass1") = some [("Authorization", "Basic user1:pass1")]
    ∧ prepareAuth (Auth.apikey "X-Api-Key" "secret123") = some [("X-Api-Key", "secret123")]
    ∧ ("X-Api-Key", "secret123").1 ≠ "Authorization" :=
  ⟨C8_prepareAuth_variants.1,
   C8_prepareAuth_variants.2.1 "tok1",
   C8_prepareAuth_variants.2.2.1 "user1" "pass1",
   C8_prepareAuth_variants.2.2.2.1 "X-Api-Key" "secret123",
   C8_prepareAuth_variants.2.2.2.2 "X-Api-Key" "secret123" (by decide)
     ("X-Api-Key", "secret123") (by decide)⟩

/-- C9: a server-streaming call whose receives all succeed until the
end-of-stream signal encodes its output as the concatenation, in arrival
order, of blocks `Message <i>:` followed by the message's text and a blank
line, indices starting at 0 — `invokeServerStream` equals the block
concatenation written from the spec's words. -/
theorem C9_stream_blocks (w : World)
    (h1 : w.newStreamErr = Option.none) (h2 : w.sendMsgErr = Option.none)
    (h3 : w.closeSendErr = Option.none) (he : w.streamEnd = .eof) :
    invokeServerStream w = (specStreamConcat 0 w.streamMsgs, Option.none) := by
  simp [invokeServerStream, h1, h2, h3, he, streamRecvLoop_eof]

/-- Witness for C9 at the three-message stream. -/
theorem C9_stream_blocks_witness :
    invokeServerStream wC9 =
      ("Message 0:\nm0\n\nMessage 1:\nm1\n\nMessage 2:\nm2\n\n", Option.none) := by
  have h := C9_stream_blocks wC9 rfl rfl rfl rfl
  rw [h]
  rfl

/-- C10: with the request stored, an empty or unknown environment id makes
the environment lookup return nil and `Invoke` dereference it during
variable substitution — before the selected-method check, so even a spec
with no method panics — whereas `GetServices` guards the same lookup and
proceeds without an environment, running discovery on the
variable-substituted spec alone. -/
theorem C10_nil_env_total_only (w : World) (st : Cache) (id envID : String) (req : Request)
    (hreq : w.requests id = some req)
    (henv : envID = "" ∨ w.environments envID = Option.none) :
    (Invoke w st id envID).outcome = .panicNilEnvironment
    ∧ GetServices w st id envID = discoverAndCache w st id (w.varsApplySpec req.spec) := by
  have hga : getActiveEnvironment w envID = Option.none := by
    rcases henv with h | h
    · simp [getActiveEnvironment, h]
    · simp [getActiveEnvironment, h]
  constructor
  · simp [Invoke, invokePrepare, hreq, hga]
  · simp [GetServices, hreq, hga]

/-- Witness for C10 at the empty environment id and a method-less request. -/
theorem C10_nil_env_total_only_witness :
    (Invoke wC10 cacheEmpty "r1" "").outcome = .panicNilEnvironment
    ∧ GetServices wC10 cacheEmpty "r1" "" =
        discoverAndCache wC10 cacheEmpty "r1" (wC10.varsApplySpec specNoMethod) :=
  C10_nil_env_total_only wC10 cacheEmpty "r1" "" ⟨specNoMethod⟩ rfl (Or.inl rfl)

end Chapar
